import Mathlib

/-
Verification of the command-registry / plugin-discovery core of the
Remote-Task-Manager client.

The Lean definitions below are shallow embeddings of the Python source:

* `Command`, `Command.getItem`, `add_command`, `get_command`
  embed `src/commands/Command.py` (the `_registered_commands` module dict is
  made an explicit association-list parameter);
* `SuccessResponse`, `ErrorResponse` and its subclasses embed
  `src/utils/APIResponse.py`;
* `CommandEndpoint` and `CommandEndpoint.call` embed the handler classes of
  `src/commands/show_popup/command.py` and `src/commands/shutdown/command.py`;
* `discover_commands` embeds `CommandsLoader.discover_commands` of
  `src/utils/commands_utils.py`, with the filesystem listing and the effect of
  importing each unit given as explicit data;
* `register_endpoint` / `load_endpoints` embed `src/utils/endpoints_loader.py`;
* `command_endpoint` embeds `RemoteClient.command_endpoint` of
  `src/remote_client.py`, with Python attribute lookup made explicit
  (`RemoteClient.__init__` never assigns `self.commands`);
* `execution_thread` and `ProgramExecutor.kill` embed
  `src/utils/programs.py`, with the behaviour of the spawned subprocess given
  as an oracle (`ProgramExecutor.__init__` never assigns `self.logger`).

Python exceptions are modelled with `Except`; a dict is an association list
whose assignment operator overwrites in place (`dictInsert`).
-/

namespace RTM

/-- Python exceptions that the embedded code can raise. -/
inductive PyExc where
  | keyError (msg : String)
  | attributeError (msg : String)
  | typeError (msg : String)
deriving Repr, DecidableEq

/-- Message carried by an exception (`str(e)`). -/
def PyExc.message : PyExc → String
  | .keyError msg => msg
  | .attributeError msg => msg
  | .typeError msg => msg

/-- One entry of an `args_types` list, as built by the `register()` functions:
a dict with keys `name`, `type`, `required`, `description`. -/
structure ArgDef where
  name : String
  type : String
  required : Bool
  description : String
deriving Repr, DecidableEq

/-- Embedding of class `Command` (src/commands/Command.py).  `function` is an
abstract reference to the stored callable.  `args_types` is the `_args_types`
attribute: `none` means the attribute was never assigned (see `Command.init`). -/
structure Command where
  name : String
  title : String
  function : Nat
  description : String
  args_types : Option (List ArgDef)
deriving Repr, DecidableEq

/-- Embedding of `Command.__init__`.  The constructor only runs
`self._args_types = []` when the `args_types` parameter is `None`; when a list
is passed the attribute is never assigned, so we record it as absent. -/
def Command.init (name title : String) (function : Nat) (description : String)
    (args_types : Option (List ArgDef)) : Command :=
  { name := name, title := title, function := function, description := description,
    args_types := match args_types with
      | none => some []
      | some _ => none }

/-- Values that `Command.__getitem__` can produce. -/
inductive CmdAttr where
  | str (s : String)
  | args (l : List ArgDef)
deriving Repr, DecidableEq

/-- Embedding of `Command.__getitem__`: valid keys are `name`, `title`,
`description` and `args`; any other key raises `KeyError`; reading `args` when
`_args_types` was never assigned raises `AttributeError`. -/
def Command.getItem (c : Command) (item : String) : Except PyExc CmdAttr :=
  if item = "name" then .ok (.str c.name)
  else if item = "title" then .ok (.str c.title)
  else if item = "description" then .ok (.str c.description)
  else if item = "args" then
    match c.args_types with
    | some l => .ok (.args l)
    | none => .error (.attributeError "\x27Command\x27 object has no attribute \x27_args_types\x27")
  else .error (.keyError ("\x27" ++ item ++ "\x27 is not a valid command attribute."))

/-- The module-level dict `_registered_commands`, as an association list in
insertion order (Python dict keys are unique; lookups take the first match). -/
abbrev CmdRegistry := List (String × Command)

/-- Embedding of `add_command` (src/commands/Command.py lines 70-90).  The
`isinstance` guard always passes in the typed embedding.  Returns the
`(message, http-code)` pair together with the updated registry. -/
def add_command (command : Command) (reg : CmdRegistry) : (String × Nat) × CmdRegistry :=
  if (reg.lookup command.name).isSome then
    (("Command \x27" ++ command.name ++ "\x27 is already registered.", 409), reg)
  else
    (("Command \x27" ++ command.name ++ "\x27 registered successfully.", 200),
      reg ++ [(command.name, command)])

/-- Result shape of `get_command`: the success branch returns the bare
`Command` object while every failure branch returns a `(message, code)` pair. -/
inductive GetCommandResult where
  | bare (c : Command)
  | pair (msg : String) (code : Nat)
deriving Repr, DecidableEq

/-- Embedding of `get_command` (src/commands/Command.py lines 108-131).
`not name` is true exactly for the empty string in the typed embedding. -/
def get_command (name : String) (reg : CmdRegistry) : GetCommandResult :=
  if name = "" then .pair "Invalid command name provided." 400
  else if name = "None" then
    .pair ("Command name must be a valid existing command name. Got \x27" ++ name ++ "\x27") 400
  else
    match reg.lookup name with
    | none => .pair ("Command \x27" ++ name ++ "\x27 not found.") 404
    | some c => .bare c

/-- Registry state reached by a sequence of `add_command` calls, starting from
the given registry. -/
def add_sequence (reg : CmdRegistry) (cs : List Command) : CmdRegistry :=
  cs.foldl (fun r c => (add_command c r).2) reg

theorem lookup_eq_none_iff {β : Type} (l : List (String × β)) (k : String) :
    l.lookup k = none ↔ k ∉ l.map Prod.fst := by
  induction l with
  | nil => simp [List.lookup]
  | cons p rest ih =>
    simp only [List.lookup, List.map_cons, List.mem_cons]
    by_cases h : k = p.1
    · simp [h]
    · have hb : (k == p.1) = false := beq_false_of_ne h
      simp [hb, ih, h]

theorem lookup_append_left {β : Type} (l₁ l₂ : List (String × β)) (k : String)
    (h : l₁.lookup k = none) : (l₁ ++ l₂).lookup k = l₂.lookup k := by
  induction l₁ with
  | nil => simp
  | cons p rest ih =>
    simp only [List.lookup, List.cons_append] at h ⊢
    cases hb : (k == p.1) with
    | true => simp [hb] at h
    | false =>
      simp only [hb] at h ⊢
      exact ih h

/-- One `add_command` step preserves distinctness of the registered names. -/
theorem add_command_keys_nodup (c : Command) (reg : CmdRegistry)
    (h : (reg.map Prod.fst).Nodup) : (((add_command c reg).2).map Prod.fst).Nodup := by
  cases hl : reg.lookup c.name with
  | some v => simpa [add_command, hl] using h
  | none =>
    have hnotin : c.name ∉ reg.map Prod.fst := (lookup_eq_none_iff reg c.name).mp hl
    have hres : (reg.map Prod.fst ++ [c.name]).Nodup := by
      refine List.Nodup.append h (List.nodup_singleton _) ?_
      intro a ha hb
      simp only [List.mem_singleton] at hb
      subst hb
      exact hnotin ha
    simpa [add_command, hl] using hres

theorem add_sequence_keys_nodup (reg : CmdRegistry) (cs : List Command)
    (h : (reg.map Prod.fst).Nodup) : ((add_sequence reg cs).map Prod.fst).Nodup := by
  induction cs generalizing reg with
  | nil => simpa [add_sequence] using h
  | cons c rest ih =>
    have hstep := add_command_keys_nodup c reg h
    simpa [add_sequence, List.foldl_cons] using ih (add_command c reg).2 hstep

/-- Embedding of `APIResponse` (src/utils/APIResponse.py): `status`, `message`,
`code` and the optional `data` payload (abstracted to a string). -/
structure APIRespM where
  status : String
  message : String
  code : Nat
  data : Option String
deriving Repr, DecidableEq

/-- Embedding of `SuccessResponse.__init__`: status `success`, code `200`;
a `None` data payload is replaced by the empty dict. -/
def SuccessResponse (message : String) (data : Option String) : APIRespM :=
  { status := "success", message := message, code := 200, data := some (data.getD "") }

/-- Embedding of `ErrorResponse.__init__` with an explicit code
(`ErrorResponse(message, code)`): status `error`, code as given. -/
def ErrorResponse (message : String) (code : Nat) : APIRespM :=
  { status := "error", message := message, code := code, data := none }

/-- `ErrorResponse(message)` with the default `code=500`. -/
def ErrorResponseDefault (message : String) : APIRespM :=
  ErrorResponse message 500

/-- Embedding of `NotFoundResponse.__init__`. -/
def NotFoundResponse (resource : String) : APIRespM :=
  ErrorResponse (resource ++ " not found") 404

/-- Embedding of `ValidationErrorResponse.__init__`. -/
def ValidationErrorResponse (field : String) : APIRespM :=
  ErrorResponse ("Missing or invalid field: " ++ field) 400

/-- Embedding of `InternalErrorResponse.__init__`. -/
def InternalErrorResponse (error : String) : APIRespM :=
  ErrorResponse ("Internal server error: " ++ error) 500

/-- Embedding of `BadRequestResponse.__init__`. -/
def BadRequestResponse (message : String) : APIRespM :=
  ErrorResponse ("Bad request: " ++ message) 400

/-- Embedding of `UnauthorizedResponse.__init__`. -/
def UnauthorizedResponse (message : String) : APIRespM :=
  ErrorResponse ("Unauthorized access: " ++ message) 401

/-- Embedding of `BadMethodErrorResponse.__init__`. -/
def BadMethodErrorResponse (method expected_method : String) : APIRespM :=
  ErrorResponse ("Unsupported method: " ++ method ++ ". Expected method: " ++ expected_method) 405

/-- Embedding of the outcome-wrapping step of `CommandEndpoint.__call__`
(src/commands/shutdown/command.py lines 90-99): a helper result
`(response, code)` becomes a success envelope when `code == 200` and an
error envelope carrying the same `code` otherwise. -/
def wrap_outcome (cmdName : String) (outcome : String × Nat) : APIRespM :=
  if outcome.2 = 200 then
    SuccessResponse (cmdName ++ " - Command executed successfully.") (some outcome.1)
  else
    ErrorResponse (cmdName ++ " - Failed to execute the command: " ++ outcome.1) outcome.2

/-- Embedding of the `CommandEndpoint` classes of the command plugins: a thin
wrapper around the internal `Command` object built by `__init__`. -/
structure CommandEndpoint where
  command : Command
deriving Repr, DecidableEq

/-- Embedding of `CommandEndpoint.__init__`: the command name is the
directory name containing the entry file, and the handler reference stored in
the `Command` is the endpoint object itself (`selfRef`).  A `None` `args_types`
is replaced by `[]` before the `Command` is constructed, so `Command.__init__`
always receives a non-`None` list — and therefore never assigns
`_args_types`. -/
def CommandEndpoint.init (dirName title description : String)
    (args_types : Option (List ArgDef)) (selfRef : Nat) : CommandEndpoint :=
  { command := Command.init dirName title selfRef description (some (args_types.getD [])) }

/-- Embedding of `CommandEndpoint.__call__` of src/commands/show_popup/command.py
(lines 184-223).  The business logic `helper_function` is passed as an oracle
`helper`; `kwargs` is the consolidated argument map.  Reading
`self.command[\x27args_types\x27]` goes through `Command.getItem` and can raise.
The `__file__` prefix of the logged error message is omitted (path-dependent). -/
def CommandEndpoint.call_show_popup (ce : CommandEndpoint)
    (helper : List (String × String) → String × Nat)
    (kwargs : List (String × String)) : Except PyExc APIRespM := do
  let nameAttr ← ce.command.getItem "name"
  let command_name := (match nameAttr with | .str s => s | .args _ => "")
  let reqAttr ← ce.command.getItem "args_types"
  let required_args := (match reqAttr with | .args l => l | .str _ => [])
  match required_args.find? (fun a => a.required && (kwargs.lookup a.name).isNone) with
  | some a =>
      .ok (ErrorResponse
        ("Missing required argument: \x27" ++ a.name ++ "\x27 for command \x27" ++
          command_name ++ "\x27.") 400)
  | none =>
      let hr := helper kwargs
      if hr.2 ≠ 200 then
        .ok (ErrorResponseDefault hr.1)
      else
        .ok (SuccessResponse
          ("Command \x27" ++ command_name ++
            "\x27 executed successfully. Message sent to client for display.") (some hr.1))

/-- Embedding of `CommandEndpoint.__call__` of src/commands/shutdown/command.py
(lines 64-99), with its business logic `helper_function` as an oracle. -/
def CommandEndpoint.call_shutdown (ce : CommandEndpoint)
    (helper : List (String × String) → String × Nat)
    (kwargs : List (String × String)) : Except PyExc APIRespM := do
  let reqAttr ← ce.command.getItem "args_types"
  let required_args := (match reqAttr with | .args l => l | .str _ => [])
  match required_args.find? (fun a => a.required && (kwargs.lookup a.name).isNone) with
  | some a =>
      .ok (BadRequestResponse ("Missing required argument: " ++ a.name))
  | none =>
      let hr := helper kwargs
      let nAttr ← ce.command.getItem "name"
      let n := (match nAttr with | .str s => s | .args _ => "")
      .ok (wrap_outcome n hr)

/-- The `args_types` list defined in `register()` of
src/commands/show_popup/command.py: `message` is required, `title` optional. -/
def showPopupArgs : List ArgDef :=
  [ { name := "message", type := "str", required := true,
      description := "The text message to be displayed in the client window." },
    { name := "title", type := "str", required := false,
      description := "The title of the message window (defaults to \x27Notification\x27)." } ]

/-- Embedding of `register()` of src/commands/show_popup/command.py: builds the
endpoint (directory name `show_popup`, the non-`None` args list above) and
returns status 200. -/
def showPopupRegister : CommandEndpoint × Nat :=
  (CommandEndpoint.init "show_popup" "Show Message Window"
    "Displays a message in an asynchronous window on the client side without blocking server execution."
    (some showPopupArgs) 0, 200)

/-- The `args_types` list defined in `register()` of
src/commands/shutdown/command.py: a single optional `time` argument. -/
def shutdownArgs : List ArgDef :=
  [ { name := "time", type := "int", required := false,
      description := "The delay in seconds before the PC shuts down. (e.g., no \x27time\x27 arg for immediate, 60 for 1 minute)." } ]

/-- Embedding of `register()` of src/commands/shutdown/command.py. -/
def shutdownRegister : CommandEndpoint × Nat :=
  (CommandEndpoint.init "shutdown" "Shutdown PC"
    "Initiates a remote shutdown of the PC after a specified delay. This command requires appropriate system permissions."
    (some shutdownArgs) 1, 200)

/-- Effect of dynamically importing a discovered unit and calling its
`register()` function, given as an oracle per filesystem entry. -/
inductive RegisterOutcome where
  | raises (msg : String)
  | noRegisterFn
  | registers (ep : CommandEndpoint) (code : Nat)
deriving Repr, DecidableEq

/-- One entry of `os.listdir` over the commands base folder. -/
structure FsEntry where
  name : String
  isDir : Bool
  hasCommandPy : Bool
  reg : RegisterOutcome
deriving Repr, DecidableEq

/-- The exclusion set of `CommandsLoader.discover_commands`. -/
def excluded_dirs : List String := ["__pycache__", "blueprint_command", "disabled"]

/-- A directory entry is processed as a command unit when it is a directory,
contains the entry file `command.py` and is not excluded. -/
def eligibleCommandDir (e : FsEntry) : Bool :=
  e.isDir && e.hasCommandPy && !(excluded_dirs.contains e.name)

/-- Python dict assignment `d[k] = v`: overwrite in place if the key exists,
append otherwise. -/
def dictInsert (reg : List (String × CommandEndpoint)) (k : String) (v : CommandEndpoint) :
    List (String × CommandEndpoint) :=
  if (reg.lookup k).isSome then
    reg.map (fun p => if p.1 = k then (k, v) else p)
  else reg ++ [(k, v)]

/-- Body of the `for command_dir_name in os.listdir(...)` loop of
`CommandsLoader.discover_commands` for one entry: import errors and other
exceptions are caught and logged, a missing `register` function and a
non-200 registration are logged, and only `(endpoint, 200)` results are stored
under the directory name. -/
def processCommandEntry (acc : List (String × CommandEndpoint)) (e : FsEntry) :
    List (String × CommandEndpoint) :=
  if eligibleCommandDir e then
    match e.reg with
    | .raises _ => acc
    | .noRegisterFn => acc
    | .registers ep code => if code = 200 then dictInsert acc e.name ep else acc
  else acc

/-- Embedding of `CommandsLoader.discover_commands`
(src/utils/commands_utils.py lines 125-190).  The filesystem is given as the
existence of the base folder plus the `os.listdir` result with each entry's
import/registration behaviour.  Returns the new `command_endpoints` dict and
the `(message, code)` pair handed to the caller; the `__file__` prefixes of the
messages are omitted (path-dependent). -/
def discover_commands (baseDirExists : Bool) (entries : List FsEntry) :
    List (String × CommandEndpoint) × (String × Nat) :=
  if !baseDirExists then
    ([], ("Commands base directory not found.", 404))
  else
    let regd := entries.foldl processCommandEntry []
    (regd, ("Discovered " ++ toString regd.length ++ " commands.", 200))

/-- The pair stored by `discover_commands` for one entry, when that entry is an
eligible directory whose `register()` returns a 200 outcome. -/
def successfulUnit (e : FsEntry) : Option (String × CommandEndpoint) :=
  if eligibleCommandDir e then
    match e.reg with
    | .registers ep code => if code = 200 then some (e.name, ep) else none
    | _ => none
  else none

/-- Result shape of `CommandsLoader.__getitem__`: a `(value, code)` pair
carrying either the whole dict or one endpoint, or the implicit Python `None`
of the fall-through path. -/
inductive LoaderGetResult where
  | all (d : List (String × CommandEndpoint)) (code : Nat)
  | one (ep : CommandEndpoint) (code : Nat)
  | noneReturn
deriving Repr, DecidableEq

/-- Embedding of `CommandsLoader.__getitem__`
(src/utils/commands_utils.py lines 259-280): an empty name returns the whole
`command_endpoints` dict with 200; a present name returns the stored endpoint
with 200 (the `isinstance` guard always passes in the typed embedding); an
absent name falls off the end of the function, returning Python `None`. -/
def CommandsLoader.getItem (command_endpoints : List (String × CommandEndpoint))
    (name : String) : LoaderGetResult :=
  if name = "" then .all command_endpoints 200
  else
    match command_endpoints.lookup name with
    | some ep => .one ep 200
    | none => .noneReturn

/-- Import/registration behaviour of one endpoint unit, as seen by
`EndpointsLoader.register_endpoint`. -/
inductive EpBehavior where
  | raises (msg : String)
  | noRegisterFn
  | registers (resp : String) (code : Nat)
deriving Repr, DecidableEq

/-- What the filesystem says about an endpoint path: a `.py` file, a directory
(whose `endpoint.py` is then imported), or nothing. -/
inductive EpPathKind where
  | pyFile
  | directory
deriving Repr, DecidableEq

/-- Dotted module path of an api path (`api_path.replace(\x27/\x27, \x27.\x27)`). -/
def pathToModulePath (api_path : String) : String :=
  api_path.map (fun c => if c = '/' then '.' else c)

/-- Embedding of `EndpointsLoader.register_endpoint`
(src/utils/endpoints_loader.py lines 52-86).  The module path is the dotted
api path, with `.endpoint` appended for a directory unit.  Every exception
raised while importing or registering the unit is caught and turned into a
`(message, 500)` result; nothing propagates to the caller. -/
def register_endpoint (api_path : String) (kind : Option EpPathKind) (b : EpBehavior) :
    String × Nat :=
  if api_path = "" then ("API path null", 400)
  else
    match kind with
    | none => ("Invalid API path", 404)
    | some k =>
      let module_path :=
        match k with
        | .pyFile => pathToModulePath api_path
        | .directory => pathToModulePath api_path ++ ".endpoint"
      match b with
      | .raises msg => ("Error loading endpoint \x27" ++ module_path ++ "\x27: " ++ msg, 500)
      | .noRegisterFn => ("No \x27register()\x27 function found in \x27" ++ module_path ++ "\x27", 500)
      | .registers resp code =>
          if code = 200 then ("Endpoint registered", 200) else (resp, code)

/-- One entry of `os.listdir` over an endpoints folder. -/
structure EpEntry where
  name : String
  isFile : Bool
  isDir : Bool
  behavior : EpBehavior
deriving Repr, DecidableEq

/-- The exclusion set of `EndpointsLoader.load_endpoints`. -/
def excluded_endpoints : List String :=
  ["__init__.py", "blueprint_endpoint.py", "__pycache__", "disabled"]

/-- Per-item effect of the `EndpointsLoader.load_endpoints` loop: excluded
items are skipped, `.py` files other than `endpoint.py` and directories are
registered; the `(message, code)` result of `register_endpoint` is dropped by
the loop. -/
def processEpEntry (relative_path : String) (e : EpEntry) : Option (String × Nat) :=
  if excluded_endpoints.contains e.name then none
  else if e.isFile && e.name.endsWith ".py" && !(e.name.endsWith "endpoint.py") then
    some (register_endpoint (relative_path ++ "/" ++ (e.name.dropRight 3))
      (some .pyFile) e.behavior)
  else if e.isDir then
    some (register_endpoint (relative_path ++ "/" ++ e.name) (some .directory) e.behavior)
  else none

/-- Embedding of `EndpointsLoader.load_endpoints`
(src/utils/endpoints_loader.py lines 19-50).  The first component records the
per-unit `register_endpoint` results (which the source merely logs and drops);
the second component is the value returned to the caller, which is the fixed
success pair regardless of any per-unit failure. -/
def load_endpoints (relative_path : String) (entries : List EpEntry) :
    List (String × Nat) × (String × Nat) :=
  (entries.filterMap (processEpEntry relative_path), ("Endpoints loaded successfully", 200))

/-- State of a `RemoteClient` as far as `command_endpoint` reads it:
`commandsAttr` models the `self.commands` attribute — `none` means the
attribute was never assigned.  `RemoteClient.__init__` assigns
`self.commands_loader`, never `self.commands`. -/
structure RemoteClientSt where
  commandsAttr : Option (List (String × CommandEndpoint))
deriving Repr, DecidableEq

/-- The attribute state produced by `RemoteClient.__init__`
(src/remote_client.py lines 29-68): no `commands` attribute exists. -/
def RemoteClient.initSt : RemoteClientSt := { commandsAttr := none }

/-- Wire response produced by a Flask view: the envelope status, its
message-or-error text, and the HTTP status code returned beside the JSON. -/
structure WireResp where
  status : String
  text : String
  code : Nat
deriving Repr, DecidableEq

/-- Embedding of `RemoteClient.command_endpoint`
(src/remote_client.py lines 242-279).  The parsed JSON body is passed
explicitly (`none` models a missing/empty body).  Attribute access on
`self.commands` is explicit: when the attribute is absent the expression
`command_name not in self.commands` raises `AttributeError`.  When a command
is found, the subsequent `command.needs_message()` call raises
`AttributeError` as well, since class `Command` defines no such method. -/
def command_endpoint (st : RemoteClientSt) (json_data : Option (List (String × String))) :
    Except PyExc WireResp :=
  match json_data with
  | none => .ok { status := "error", text := "Command not provided", code := 400 }
  | some jd =>
    if jd.isEmpty || (jd.lookup "command").isNone then
      .ok { status := "error", text := "Command not provided", code := 400 }
    else
      let command_name := (jd.lookup "command").getD ""
      match st.commandsAttr with
      | none => .error (.attributeError "\x27RemoteClient\x27 object has no attribute \x27commands\x27")
      | some cmds =>
        if (cmds.lookup command_name).isNone then
          .ok { status := "error",
                text := "Command \x27" ++ command_name ++ "\x27 does not exist", code := 404 }
        else
          .error (.attributeError "\x27CommandEndpoint\x27 object has no attribute \x27needs_message\x27")

/-- Exception-conversion step of the `error_handler` decorator
(src/utils/APIResponse.py lines 196-199): a raising view is converted into
the `{"status": "error", "message": str(e)}` envelope with code 500.  The
argument-consolidation half of the decorator is modelled by
`wrapped_command_endpoint` below. -/
def error_handler_wrap (r : Except PyExc WireResp) : WireResp :=
  match r with
  | .ok v => v
  | .error e => { status := "error", text := e.message, code := 500 }

/-- Python dict assignment `d[k] = v` on a string-valued dict. -/
def pyDictSet (d : List (String × String)) (k v : String) : List (String × String) :=
  if (d.lookup k).isSome then
    d.map (fun p => if p.1 = k then (k, v) else p)
  else d ++ [(k, v)]

/-- Python `d.update(src)`: later sources override earlier ones key by key. -/
def pyDictUpdate (d : List (String × String)) (src : List (String × String)) :
    List (String × String) :=
  src.foldl (fun acc p => pyDictSet acc p.1 p.2) d

/-- Embedding of the full `error_handler` decorator
(src/utils/APIResponse.py lines 175-201) applied to the bound view
`RemoteClient.command_endpoint`, as registered on the `/api/command` route.
The wrapper consolidates the URL path parameters (`kwargs` — the route
declares none), the query parameters and the JSON body into `handler_args`
and calls `func(**handler_args)`.  The view `command_endpoint(self)` accepts
no keyword parameters, so whenever the consolidated map is non-empty the call
raises `TypeError` naming the first (insertion-ordered) unexpected keyword,
which the decorator converts to a 500 envelope; only an empty consolidated
map reaches the view body. -/
def wrapped_command_endpoint (st : RemoteClientSt)
    (url_kwargs query_args : List (String × String))
    (json_body : Option (List (String × String))) : WireResp :=
  let handler_args := pyDictUpdate (pyDictUpdate url_kwargs query_args) (json_body.getD [])
  match handler_args with
  | [] => error_handler_wrap (command_endpoint st json_body)
  | p :: _ =>
    error_handler_wrap (.error (.typeError
      ("command_endpoint() got an unexpected keyword argument \x27" ++ p.1 ++ "\x27")))

/-- Render of a Python optional int in an f-string (`str(None) == "None"`). -/
def pyStr (t : Option Nat) : String :=
  match t with
  | none => "None"
  | some n => toString n

/-- The per-process result dict of `ProgramExecutor.execute_program`
(src/utils/programs.py lines 51-59); `processSet` models whether the
`process` key holds a `Popen` object. -/
structure ProcRecord where
  process_id : Nat
  status : String
  returncode : Option Int
  stdout : Option String
  stderr : Option String
  error : Option String
  processSet : Bool
deriving Repr, DecidableEq

/-- The record as initialised before the execution thread starts. -/
def initRecord (pid : Nat) : ProcRecord :=
  { process_id := pid, status := "starting", returncode := none, stdout := none,
    stderr := none, error := none, processSet := false }

/-- Validation failures raised before the subprocess is spawned. -/
inductive ValFail where
  | missingFile (path : String)
  | badSuffix (suffix : String)
  | noExecPerm (path : String)
deriving Repr, DecidableEq

/-- Exception text of a validation failure (`str(e)`). -/
def valFailMsg : ValFail → String
  | .missingFile path => "The file \x27" ++ path ++ "\x27 does not exist."
  | .badSuffix suffix => "Invalid file type \x27" ++ suffix ++ "\x27. Must be .exe or .bat"
  | .noExecPerm path => "No execute permission for \x27" ++ path ++ "\x27"

/-- Behaviour of the spawned subprocess, as an oracle: `communicate(timeout=t)`
either returns `(stdout, stderr)` with some exit code within the timeout, or
raises `TimeoutExpired` (after which the process is killed and the remaining
output harvested). -/
inductive ProcOutcome where
  | completes (rc : Int) (out err : String)
  | timesOut (out err : String)
deriving Repr, DecidableEq

/-- Attribute state of a `ProgramExecutor` as far as the execution thread and
`kill` read it: `loggerAttr` models `self.logger` — `none` means the attribute
was never assigned.  `ProgramExecutor.__init__` (src/utils/programs.py
lines 13-18) assigns `running_processes`, `_process_counter` and `_lock`,
never `logger`. -/
structure ExecutorSt where
  loggerAttr : Option Unit
deriving Repr, DecidableEq

/-- The attribute state produced by `ProgramExecutor.__init__`. -/
def ProgramExecutor.initSt : ExecutorSt := { loggerAttr := none }

/-- Result of running the `execution_thread` closure: the record left in
`running_processes`, the sequence of values assigned to `result[\x27status\x27]`
in program order, and whether the thread died with an uncaught exception. -/
structure ThreadResult where
  record : ProcRecord
  statusWrites : List String
  uncaught : Bool
deriving Repr, DecidableEq

/-- Embedding of the `execution_thread` closure of
`ProgramExecutor.execute_program` (src/utils/programs.py lines 63-128), run to
completion on one subprocess behaviour:

* a validation failure raises inside the `try`, so the generic handler sets
  status `error`; the handler\x27s own `self.logger.error` then raises
  `AttributeError` when the executor has no `logger` attribute;
* when `communicate` returns, status becomes `completed` and the return code
  and captured output are stored; the following `self.logger.info` raises
  `AttributeError`, which the generic `except Exception` handler catches,
  overwriting status with `error`; the handler\x27s `self.logger.error` raises
  again and escapes;
* on `TimeoutExpired`, status becomes `timeout`, the process is killed and
  buffered output harvested; the handler\x27s trailing `self.logger.error`
  raises and escapes, leaving the stored status at `timeout`. -/
def execution_thread (ex : ExecutorSt) (pid : Nat) (capture_output : Bool)
    (timeout : Option Nat) (validation : Option ValFail) (outcome : ProcOutcome) :
    ThreadResult :=
  let r0 := initRecord pid
  match validation with
  | some vf =>
    let r1 := { r0 with status := "error", error := some (valFailMsg vf) }
    ⟨r1, ["starting", "error"], ex.loggerAttr.isNone⟩
  | none =>
    match outcome with
    | .completes rc out err =>
      let r2 := { r0 with
        status := "completed"
        processSet := true
        returncode := some rc
        stdout := if capture_output then some out else none
        stderr := if capture_output then some err else none }
      match ex.loggerAttr with
      | some _ => ⟨r2, ["starting", "running", "completed"], false⟩
      | none =>
        let r3 := { r2 with
          status := "error"
          error := some "\x27ProgramExecutor\x27 object has no attribute \x27logger\x27" }
        ⟨r3, ["starting", "running", "completed", "error"], true⟩
    | .timesOut out err =>
      let r2 := { r0 with
        status := "timeout"
        processSet := true
        error := some ("Process " ++ toString pid ++ " timed out after " ++
          pyStr timeout ++ " seconds")
        stdout := if capture_output then some out else none
        stderr := if capture_output then some err else none }
      ⟨r2, ["starting", "running", "timeout"], ex.loggerAttr.isNone⟩

/-- Result of `ProgramExecutor.kill`: the (possibly updated) stored record and
either the returned boolean or the exception that escaped. -/
structure KillOutcome where
  record : ProcRecord
  result : Except PyExc Bool
deriving Repr

/-- Embedding of `ProgramExecutor.kill` (src/utils/programs.py lines 162-189)
applied to the stored record of one process id.  Every branch ends in a
`self.logger` call, which raises `AttributeError` when the executor has no
`logger` attribute; in the successful branch this happens after
`status[\x27status\x27] = \x27killed\x27` has been stored. -/
def ProgramExecutor.kill (ex : ExecutorSt) (r : ProcRecord) : KillOutcome :=
  if r.status ≠ "running" then
    match ex.loggerAttr with
    | some _ => ⟨r, .ok false⟩
    | none => ⟨r, .error (.attributeError "\x27ProgramExecutor\x27 object has no attribute \x27logger\x27")⟩
  else if r.processSet then
    let r1 := { r with status := "killed" }
    match ex.loggerAttr with
    | some _ => ⟨r1, .ok true⟩
    | none => ⟨r1, .error (.attributeError "\x27ProgramExecutor\x27 object has no attribute \x27logger\x27")⟩
  else
    match ex.loggerAttr with
    | some _ => ⟨r, .ok false⟩
    | none => ⟨r, .error (.attributeError "\x27ProgramExecutor\x27 object has no attribute \x27logger\x27")⟩

theorem dictInsert_of_lookup_none (acc : List (String × CommandEndpoint)) (k : String)
    (v : CommandEndpoint) (h : acc.lookup k = none) : dictInsert acc k v = acc ++ [(k, v)] := by
  simp [dictInsert, h]

/-- Characterisation of the `discover_commands` fold: when the listed entry
names are distinct (as `os.listdir` guarantees) and none collides with the
accumulator, the fold appends exactly the successfully registered units. -/
theorem foldl_processCommandEntry_eq (entries : List FsEntry) :
    ∀ acc : List (String × CommandEndpoint),
      (entries.map FsEntry.name).Nodup →
      (∀ e ∈ entries, acc.lookup e.name = none) →
      entries.foldl processCommandEntry acc = acc ++ entries.filterMap successfulUnit := by
  induction entries with
  | nil => intro acc _ _; simp
  | cons e rest ih =>
    intro acc hn hd
    simp only [List.map_cons, List.nodup_cons] at hn
    obtain ⟨hne, hnr⟩ := hn
    have hacc : acc.lookup e.name = none := hd e (List.mem_cons_self _ _)
    have htail : ∀ x ∈ rest, acc.lookup x.name = none :=
      fun x hx => hd x (List.mem_cons_of_mem _ hx)
    by_cases helig : eligibleCommandDir e = true
    · cases hre : e.reg with
      | raises msg =>
        have hstep : processCommandEntry acc e = acc := by
          simp [processCommandEntry, helig, hre]
        have hsu : successfulUnit e = none := by simp [successfulUnit, helig, hre]
        simp only [List.foldl_cons, hstep, List.filterMap_cons, hsu]
        exact ih acc hnr htail
      | noRegisterFn =>
        have hstep : processCommandEntry acc e = acc := by
          simp [processCommandEntry, helig, hre]
        have hsu : successfulUnit e = none := by simp [successfulUnit, helig, hre]
        simp only [List.foldl_cons, hstep, List.filterMap_cons, hsu]
        exact ih acc hnr htail
      | registers ep code =>
        by_cases hc : code = 200
        · subst hc
          have hstep : processCommandEntry acc e = acc ++ [(e.name, ep)] := by
            simp [processCommandEntry, helig, hre, dictInsert, hacc]
          have hsu : successfulUnit e = some (e.name, ep) := by
            simp [successfulUnit, helig, hre]
          have hd2 : ∀ x ∈ rest, (acc ++ [(e.name, ep)]).lookup x.name = none := by
            intro x hx
            have h1 : acc.lookup x.name = none := htail x hx
            have hxne : x.name ≠ e.name := by
              intro hEq
              exact hne (hEq ▸ List.mem_map_of_mem FsEntry.name hx)
            rw [lookup_append_left _ _ _ h1]
            simp [List.lookup, beq_false_of_ne hxne]
          simp only [List.foldl_cons, hstep, List.filterMap_cons, hsu]
          rw [ih (acc ++ [(e.name, ep)]) hnr hd2, List.append_assoc]
          rfl
        · have hstep : processCommandEntry acc e = acc := by
            simp [processCommandEntry, helig, hre, hc]
          have hsu : successfulUnit e = none := by simp [successfulUnit, helig, hre, hc]
          simp only [List.foldl_cons, hstep, List.filterMap_cons, hsu]
          exact ih acc hnr htail
    · have hstep : processCommandEntry acc e = acc := by
        simp [processCommandEntry, helig]
      have hsu : successfulUnit e = none := by simp [successfulUnit, helig]
      simp only [List.foldl_cons, hstep, List.filterMap_cons, hsu]
      exact ih acc hnr htail

/-- The registry built by a discovery pass with distinct entry names is exactly
the list of successfully registered units. -/
theorem discover_commands_eq (entries : List FsEntry)
    (hn : (entries.map FsEntry.name).Nodup) :
    (discover_commands true entries).1 = entries.filterMap successfulUnit := by
  have h := foldl_processCommandEntry_eq entries [] hn (by intro e _; rfl)
  simpa [discover_commands] using h

/-- The key stored for a successfully registered unit is the directory name. -/
theorem successfulUnit_key (a : FsEntry) (p : String × CommandEndpoint)
    (h : successfulUnit a = some p) : p.1 = a.name := by
  unfold successfulUnit at h
  by_cases h1 : eligibleCommandDir a = true
  · rw [if_pos h1] at h
    cases hra : a.reg with
    | raises m => rw [hra] at h; simp at h
    | noRegisterFn => rw [hra] at h; simp at h
    | registers ep code =>
      rw [hra] at h
      by_cases hc : code = 200
      · simp only [hc, if_pos, Option.some.injEq] at h
        rw [← h]
      · simp [hc] at h
  · rw [if_neg h1] at h; simp at h

theorem successfulUnit_eligible (a : FsEntry) (p : String × CommandEndpoint)
    (h : successfulUnit a = some p) : eligibleCommandDir a = true := by
  by_contra hne
  unfold successfulUnit at h
  rw [if_neg hne] at h
  cases h

/-- Lookup in the discovered registry of an eligible, successfully registering
entry returns that entry\x27s endpoint under the directory name. -/
theorem lookup_filterMap_successfulUnit (entries : List FsEntry) :
    (entries.map FsEntry.name).Nodup →
    ∀ (e : FsEntry) (ep : CommandEndpoint),
      e ∈ entries → eligibleCommandDir e = true → e.reg = .registers ep 200 →
      (entries.filterMap successfulUnit).lookup e.name = some ep := by
  induction entries with
  | nil =>
    intro _ e ep he
    exact absurd he (List.not_mem_nil e)
  | cons a rest ih =>
    intro hn e ep he helig hreg
    simp only [List.map_cons, List.nodup_cons] at hn
    obtain ⟨hna, hnr⟩ := hn
    rcases List.mem_cons.mp he with rfl | hrest
    · have hsu : successfulUnit e = some (e.name, ep) := by
        simp [successfulUnit, helig, hreg]
      simp [List.filterMap_cons, hsu, List.lookup]
    · have hne : e.name ≠ a.name := by
        intro hEq
        exact hna (hEq ▸ List.mem_map_of_mem FsEntry.name hrest)
      cases hsu : successfulUnit a with
      | none =>
        simp only [List.filterMap_cons, hsu]
        exact ih hnr e ep hrest helig hreg
      | some p =>
        have hp1 : p.1 = a.name := successfulUnit_key a p hsu
        simp only [List.filterMap_cons, hsu, List.lookup]
        have hb : (e.name == p.1) = false := by
          rw [hp1]
          exact beq_false_of_ne hne
        simp only [hb]
        exact ih hnr e ep hrest helig hreg

theorem mem_filterMap_successfulUnit (entries : List FsEntry) (k : String) (v : CommandEndpoint)
    (h : (k, v) ∈ entries.filterMap successfulUnit) :
    ∃ e, e ∈ entries ∧ e.isDir = true ∧ e.hasCommandPy = true ∧ k = e.name := by
  rcases List.mem_filterMap.mp h with ⟨e, he, hsu⟩
  have hk : k = e.name := by
    have h1 := successfulUnit_key e (k, v) hsu
    simpa using h1
  have helig := successfulUnit_eligible e (k, v) hsu
  unfold eligibleCommandDir at helig
  simp only [Bool.and_eq_true] at helig
  exact ⟨e, he, helig.1.1, helig.1.2, hk⟩

/-- C1: for every sequence of registration attempts the command registry holds
at most one descriptor per name; calling `add_command` with a command whose
name is already registered returns the conflict message with HTTP code 409 and
leaves the registry mapping — in particular the first descriptor bound to that
name — unchanged. -/
theorem C1_duplicate_add_conflicts_and_registry_names_unique :
    (∀ (reg : CmdRegistry) (c : Command), (reg.lookup c.name).isSome →
      add_command c reg =
        (("Command \x27" ++ c.name ++ "\x27 is already registered.", 409), reg) ∧
      ((add_command c reg).2).lookup c.name = reg.lookup c.name) ∧
    (∀ cs : List Command, ((add_sequence [] cs).map Prod.fst).Nodup) := by
  constructor
  · intro reg c h
    refine ⟨by simp [add_command, h], ?_⟩
    simp [add_command, h]
  · intro cs
    exact add_sequence_keys_nodup [] cs (by simp)

/-- Witness for C1: a concrete duplicate registration of the name `a` is
rejected with code 409 and leaves the registry unchanged, and a concrete
add sequence with a repeated name keeps the key list duplicate-free. -/
theorem C1_duplicate_add_witness :
    ((([("a", Command.init "a" "t" 0 "d" none)] : CmdRegistry).lookup
        (Command.init "a" "t2" 1 "d2" none).name).isSome = true) ∧
    (add_command (Command.init "a" "t2" 1 "d2" none)
        [("a", Command.init "a" "t" 0 "d" none)] =
      (("Command \x27" ++ (Command.init "a" "t2" 1 "d2" none).name ++
          "\x27 is already registered.", 409),
        [("a", Command.init "a" "t" 0 "d" none)])) ∧
    ((add_sequence [] [Command.init "a" "t" 0 "d" none,
        Command.init "a" "t2" 1 "d2" none]).map Prod.fst).Nodup :=
  ⟨by decide,
    (C1_duplicate_add_conflicts_and_registry_names_unique.1
      [("a", Command.init "a" "t" 0 "d" none)]
      (Command.init "a" "t2" 1 "d2" none) (by decide)).1,
    C1_duplicate_add_conflicts_and_registry_names_unique.2
      [Command.init "a" "t" 0 "d" none, Command.init "a" "t2" 1 "d2" none]⟩

/-- C2: a discovery pass over any listing (with the distinct entry names that
`os.listdir` guarantees) produces exactly the successfully registered units,
whatever the other units do — raising on import, lacking `register`, or
failing self-registration — and the scan always hands `(message, 200)` back to
the caller; the endpoint loader likewise returns its fixed success pair to the
caller no matter how the per-unit registrations fail. -/
theorem C2_unit_failures_isolated_during_discovery :
    ∀ entries : List FsEntry,
      ((entries.map FsEntry.name).Nodup →
        (discover_commands true entries).1 = entries.filterMap successfulUnit) ∧
      (discover_commands true entries).2.2 = 200 ∧
      (∀ (rel : String) (eps : List EpEntry),
        (load_endpoints rel eps).2 = ("Endpoints loaded successfully", 200)) := by
  intro entries
  refine ⟨fun hn => discover_commands_eq entries hn, by simp [discover_commands], ?_⟩
  intro rel eps
  rfl

/-- Witness for C2: a root with one unit that raises on import and one unit
that registers successfully yields a registry containing exactly the
successful unit. -/
theorem C2_unit_failures_witness :
    (([⟨"broken", true, true, .raises "boom"⟩,
        ⟨"show_popup", true, true, .registers showPopupRegister.1 200⟩] :
          List FsEntry).map FsEntry.name).Nodup ∧
    (discover_commands true
        [⟨"broken", true, true, .raises "boom"⟩,
         ⟨"show_popup", true, true, .registers showPopupRegister.1 200⟩]).1 =
      [("show_popup", showPopupRegister.1)] :=
  ⟨by decide,
    ((C2_unit_failures_isolated_during_discovery
        [⟨"broken", true, true, .raises "boom"⟩,
         ⟨"show_popup", true, true, .registers showPopupRegister.1 200⟩]).1
      (by decide)).trans (by rfl)⟩

/-- C9: in any discovery pass with distinct entry names, an eligible composite
unit (a directory containing `command.py`, not excluded) that registers with
code 200 appears in the registry under the directory name, and conversely
every registered key is the name of some directory entry that contained the
entry file — the registered name is determined by the filesystem path. -/
theorem C9_composite_units_registered_under_directory_name :
    ∀ entries : List FsEntry, (entries.map FsEntry.name).Nodup →
      (∀ (e : FsEntry) (ep : CommandEndpoint),
        e ∈ entries → eligibleCommandDir e = true → e.reg = .registers ep 200 →
        ((discover_commands true entries).1).lookup e.name = some ep) ∧
      (∀ (k : String) (v : CommandEndpoint), (k, v) ∈ (discover_commands true entries).1 →
        ∃ e, e ∈ entries ∧ e.isDir = true ∧ e.hasCommandPy = true ∧ k = e.name) := by
  intro entries hn
  constructor
  · intro e ep he helig hreg
    rw [discover_commands_eq entries hn]
    exact lookup_filterMap_successfulUnit entries hn e ep he helig hreg
  · intro k v hkv
    rw [discover_commands_eq entries hn] at hkv
    exact mem_filterMap_successfulUnit entries k v hkv

/-- Witness for C9: a concrete directory `get_specs` containing `command.py`
whose registration succeeds is looked up in the discovered registry under the
directory name. -/
theorem C9_composite_units_witness :
    ((discover_commands true
        [⟨"get_specs", true, true, .registers shutdownRegister.1 200⟩]).1).lookup
      "get_specs" = some shutdownRegister.1 :=
  (C9_composite_units_registered_under_directory_name
      [⟨"get_specs", true, true, .registers shutdownRegister.1 200⟩] (by decide)).1
    ⟨"get_specs", true, true, .registers shutdownRegister.1 200⟩ shutdownRegister.1
    (by decide) (by decide) (by rfl)

/-- C3: evaluation of the code at the failing inputs.  The claim says a
handler whose `argSpec` marks `f` required returns a 400 envelope naming `f`
when `f` is missing and otherwise proceeds to business logic; in the code,
`CommandEndpoint.__call__` first reads `self.command[\x27args_types\x27]`, a key
`Command.__getitem__` rejects, so for every argument map and every business
logic the handler raises `KeyError` before any validation — it never returns
the 400 envelope and never invokes the business logic, for both cited
commands (`show_popup`, whose `message` argument is required, and
`shutdown`). -/
theorem C3_required_arg_validation_is_dead_code :
    ∀ (helper : List (String × String) → String × Nat)
      (kwargs : List (String × String)),
      showPopupRegister.1.call_show_popup helper kwargs =
        .error (.keyError "\x27args_types\x27 is not a valid command attribute.") ∧
      shutdownRegister.1.call_shutdown helper kwargs =
        .error (.keyError "\x27args_types\x27 is not a valid command attribute.") := by
  intro helper kwargs
  exact ⟨rfl, rfl⟩

/-- C4 counterexample: the claim quantifies over arbitrary `(payload, code)`
pairs fed through the wrapper, but the pair `("boom", 201)` produces an error
envelope whose HTTP code is 201, which is not `>= 400`. -/
theorem C4_error_envelope_code_counterexample :
    (wrap_outcome "shutdown" ("boom", 201)).status = "error" ∧
    (wrap_outcome "shutdown" ("boom", 201)).code = 201 ∧
    ¬ 400 ≤ (wrap_outcome "shutdown" ("boom", 201)).code := by
  refine ⟨rfl, rfl, ?_⟩
  decide

/-- C4 amended: `status == success` implies the HTTP code is in `[200, 299]`
(the wrapper and `SuccessResponse` always emit 200); `status == error` implies
the HTTP code is the code fed to the wrapper, so the `>= 400` half holds
whenever the fed code is 200 or at least 400 — as every error constructor used
in the source guarantees (default 500, and 404/400/500/400/401/405 for the
specialised responses). -/
theorem C4_envelope_invariant_amended :
    (∀ (name payload : String) (code : Nat),
      ((wrap_outcome name (payload, code)).status = "success" →
        200 ≤ (wrap_outcome name (payload, code)).code ∧
          (wrap_outcome name (payload, code)).code < 300) ∧
      (code = 200 ∨ 400 ≤ code →
        (wrap_outcome name (payload, code)).status = "error" →
        400 ≤ (wrap_outcome name (payload, code)).code)) ∧
    (∀ m d, (SuccessResponse m d).status = "success" ∧ (SuccessResponse m d).code = 200) ∧
    (∀ m, (ErrorResponseDefault m).status = "error" ∧ (ErrorResponseDefault m).code = 500 ∧
      (NotFoundResponse m).code = 404 ∧ (ValidationErrorResponse m).code = 400 ∧
      (InternalErrorResponse m).code = 500 ∧ (BadRequestResponse m).code = 400 ∧
      (UnauthorizedResponse m).code = 401) ∧
    (∀ m e, (BadMethodErrorResponse m e).code = 405) := by
  refine ⟨?_, ?_, ?_, ?_⟩
  · intro name payload code
    by_cases hc : code = 200
    · subst hc
      constructor
      · intro _
        constructor
        · simp [wrap_outcome, SuccessResponse]
        · simp [wrap_outcome, SuccessResponse]
      · intro _ hs
        simp [wrap_outcome, SuccessResponse] at hs
    · constructor
      · intro hs
        simp [wrap_outcome, hc, ErrorResponse] at hs
      · intro hcode _
        rcases hcode with h200 | h400
        · exact absurd h200 hc
        · simpa [wrap_outcome, hc, ErrorResponse] using h400
  · intro m d
    exact ⟨rfl, rfl⟩
  · intro m
    exact ⟨rfl, rfl, rfl, rfl, rfl, rfl, rfl⟩
  · intro m e
    rfl

/-- Witness for C4 amended: the pair `("nope", 404)` fed through the wrapper
yields an error envelope whose code is at least 400. -/
theorem C4_envelope_invariant_witness :
    400 ≤ (wrap_outcome "shutdown" ("nope", 404)).code :=
  (C4_envelope_invariant_amended.1 "shutdown" "nope" 404).2
    (Or.inr (by decide)) (by rfl)

/-- C5: evaluation of the code at the failing input.  The claim (matching the
404 branch the source visibly intends and the spec\x27s end-to-end test) says an
unknown command name yields a 404 envelope naming the command.  In the code,
the `error_handler` decorator splats the consolidated arguments into
`func(**handler_args)` while the registered view `command_endpoint(self)`
accepts no keyword parameters, so the request with body
`{"command": "nope"}` raises `TypeError` inside the decorator and is answered
with a 500 envelope carrying the unexpected-keyword text — the view body,
its 404 branch, and the latent `self.commands` `AttributeError` behind it are
all unreachable for any non-empty JSON body.  The third conjunct shows the
view body does run when the consolidated map is empty: an empty JSON body
reaches it and yields the 400 `Command not provided` envelope. -/
theorem C5_unknown_command_typeerror_500_not_404 :
    wrapped_command_endpoint RemoteClient.initSt [] [] (some [("command", "nope")]) =
      { status := "error",
        text := "command_endpoint() got an unexpected keyword argument \x27command\x27",
        code := 500 } ∧
    (wrapped_command_endpoint RemoteClient.initSt [] []
        (some [("command", "nope")])).code ≠ 404 ∧
    wrapped_command_endpoint RemoteClient.initSt [] [] (some []) =
      { status := "error", text := "Command not provided", code := 400 } := by
  refine ⟨rfl, ?_, rfl⟩
  decide

/-- C7: evaluation of the code at the failing input.  The timeout half of the
claim holds: a process that exceeds its timeout leaves final status
`timeout`.  But a process that exits with code 0 within the timeout does not
end `completed`: after the thread stores `completed` and returncode 0, its
`self.logger.info` call raises `AttributeError` (`ProgramExecutor` never
assigns `self.logger`), and the generic exception handler overwrites the
status with `error`. -/
theorem C7_exit0_ends_error_not_completed :
    ∀ (cap : Bool) (t : Option Nat) (out err : String),
      ((execution_thread ProgramExecutor.initSt 1 cap t none
          (.completes 0 out err)).record.status = "error" ∧
        (execution_thread ProgramExecutor.initSt 1 cap t none
          (.completes 0 out err)).record.status ≠ "completed" ∧
        (execution_thread ProgramExecutor.initSt 1 cap t none
          (.completes 0 out err)).record.returncode = some 0) ∧
      (execution_thread ProgramExecutor.initSt 1 cap t none
          (.timesOut out err)).record.status = "timeout" := by
  intro cap t out err
  refine ⟨⟨rfl, ?_, rfl⟩, rfl⟩
  intro h
  have h2 : ("error" : String) = "completed" := h
  exact absurd h2 (by decide)

/-- C8: evaluation of the code at the failing input.  Within a single
execution whose process exits 0 within the timeout, the status field is
assigned `starting`, `running`, the terminal `completed`, and then is
overwritten with `error` (the `AttributeError` on the missing `self.logger`
caught by the generic handler) — so a terminal status is overwritten, contrary
to the claim.  For contrast, `kill` on a running record does write the
terminal `killed`. -/
theorem C8_terminal_status_overwritten :
    (execution_thread ProgramExecutor.initSt 1 false none none
        (.completes 0 "" "")).statusWrites =
      ["starting", "running", "completed", "error"] ∧
    (ProgramExecutor.kill ProgramExecutor.initSt
        { initRecord 2 with status := "running", processSet := true }).record.status =
      "killed" := by
  exact ⟨rfl, rfl⟩

/-- C10 counterexample: a `Command` named `"None"` can be registered, and
`get_command` on that registered name returns a `(message, 400)` pair rather
than the bare `Command` object, so "registered implies bare object" fails. -/
theorem C10_registered_name_pair_counterexample :
    ((add_command (Command.init "None" "t" 0 "d" none) []).2).lookup "None" =
      some (Command.init "None" "t" 0 "d" none) ∧
    get_command "None" (add_command (Command.init "None" "t" 0 "d" none) []).2 =
      .pair ("Command name must be a valid existing command name. Got \x27" ++
        "None" ++ "\x27") 400 := by
  exact ⟨rfl, rfl⟩

/-- C10 amended: `get_command` on a registered name returns the bare
`Command` object — without a status code — provided the name is neither empty
nor the literal `"None"`; every failure branch (empty name, the name
`"None"`, or an absent name) returns a `(message, code)` pair with code 400
or 404, so the success and failure shapes of the operation differ. -/
theorem C10_success_and_failure_shapes_amended :
    ∀ (reg : CmdRegistry) (name : String),
      (∀ c, name ≠ "" → name ≠ "None" → reg.lookup name = some c →
        get_command name reg = .bare c) ∧
      (name = "" ∨ name = "None" ∨ reg.lookup name = none →
        ∃ m k, get_command name reg = .pair m k ∧ (k = 400 ∨ k = 404)) := by
  intro reg name
  constructor
  · intro c h1 h2 h3
    simp [get_command, h1, h2, h3]
  · intro h
    by_cases hn1 : name = ""
    · exact ⟨"Invalid command name provided.", 400, by simp [get_command, hn1], Or.inl rfl⟩
    · by_cases hn2 : name = "None"
      · refine ⟨"Command name must be a valid existing command name. Got \x27" ++
          name ++ "\x27", 400, by simp [get_command, hn1, hn2], Or.inl rfl⟩
      · have hl : reg.lookup name = none := by
          rcases h with h | h | h
          · exact absurd h hn1
          · exact absurd h hn2
          · exact h
        exact ⟨"Command \x27" ++ name ++ "\x27 not found.", 404,
          by simp [get_command, hn1, hn2, hl], Or.inr rfl⟩

/-- Witness for C10 amended: a concrete registered name yields the bare
object, and the concrete empty name yields a `(message, code)` pair. -/
theorem C10_success_and_failure_shapes_witness :
    get_command "x" [("x", Command.init "x" "t" 0 "d" none)] =
      .bare (Command.init "x" "t" 0 "d" none) ∧
    ∃ m k, get_command "" [] = .pair m k ∧ (k = 400 ∨ k = 404) :=
  ⟨(C10_success_and_failure_shapes_amended [("x", Command.init "x" "t" 0 "d" none)] "x").1
      (Command.init "x" "t" 0 "d" none) (by decide) (by decide) rfl,
    (C10_success_and_failure_shapes_amended [] "").2 (Or.inl rfl)⟩

end RTM
